import Mathlib

/-
Verification development for the Elfsod ad-surveillance repository.

The repository's backend (metrics engine and fetch orchestrator) is
described in the project documentation (src/unnamed/part_005) and spec;
the frontend React components are in src/frontend.  Definitions below
are shallow embeddings: pure functions of the code, with JavaScript
truthiness (`||`, falsy empty strings) made explicit where the source
relies on it.
-/

namespace Elfsod

/-- The four ad platforms.  The spec names them general-search (Google),
social (Meta), professional-network (LinkedIn) and forum (Reddit); the
documentation uses the vendor names, which we keep. -/
inductive Platform where
  | google
  | meta
  | linkedin
  | reddit
deriving DecidableEq

/-- Media format of an ad creative. -/
inductive MediaFormat where
  | image
  | video
  | carousel
deriving DecidableEq

/-- Modelled from the spec: the fixed per-platform CPM constant table
(the backend services module is not in the repository; values are the
ones listed in the documentation: Google 2.50, Meta 5.00, LinkedIn 8.00,
Reddit 1.50 per 1000 impressions). -/
def cpm_estimates : Platform → ℚ
  | .google => 5/2
  | .meta => 5
  | .linkedin => 8
  | .reddit => 3/2

/-- Modelled from the spec: the fixed per-platform CPC constant table
(documentation values: Google 2.50, Meta 1.20, LinkedIn 5.00,
Reddit 0.80). -/
def cpc_estimates : Platform → ℚ
  | .google => 5/2
  | .meta => 6/5
  | .linkedin => 5
  | .reddit => 4/5

/-- Modelled from the spec: per-ad spend estimate, impressions/1000
times the platform CPM constant; absent impressions give the explicit
`unavailable` value, embedded as `none` (never a fabricated zero). -/
def estimateSpend (p : Platform) (impressions : Option ℕ) : Option ℚ :=
  impressions.map (fun i => (i : ℚ) / 1000 * cpm_estimates p)

/-- Modelled from the spec: the single fixed per-platform rate table
holding, for each platform, the (CPM, CPC) pair of constants. -/
def platformRateTable : Platform → ℚ × ℚ
  | .google => (5/2, 5/2)
  | .meta => (5, 6/5)
  | .linkedin => (8, 5)
  | .reddit => (3/2, 4/5)

/-- An ad as seen by the metrics engine: platform, text, media format,
optional platform-reported impressions. -/
structure MetricsAd where
  platform : Platform
  headline : String
  description : String
  mediaFormat : MediaFormat
  impressions : Option ℕ
deriving DecidableEq

/-- Per-ad CPM estimate: a direct lookup by the ad's platform. -/
def adCPM (a : MetricsAd) : ℚ := cpm_estimates a.platform

/-- Per-ad CPC estimate: a direct lookup by the ad's platform. -/
def adCPC (a : MetricsAd) : ℚ := cpc_estimates a.platform

/-- Modelled from the spec: per-ad frequency estimate,
(impressions / 1000) divided by the competitor's total active ad count,
guarded: ad count 0 or absent impressions give `unavailable` (`none`). -/
def estimateFrequency (impressions : Option ℕ) (adCount : ℕ) : Option ℚ :=
  match impressions with
  | none => none
  | some i => if adCount = 0 then none else some ((i : ℚ) / 1000 / (adCount : ℚ))

/-- Clamp a value to the closed interval [lo, hi]. -/
def clamp (lo hi x : ℚ) : ℚ := max lo (min hi x)

/-- Modelled from the spec: CTR estimate in percent.  Base rate 2%, a
per-platform adjustment (its magnitudes are not fixed by the spec, so it
is a parameter), +0.5 for video, +0.3 when combined headline+description
length exceeds the completeness threshold, clamped to [0.1, 15]. -/
def estimateCTR (adj : Platform → ℚ) (threshold : ℕ) (a : MetricsAd) : ℚ :=
  clamp (1/10) 15
    (2 + adj a.platform
       + (if a.mediaFormat = .video then 1/2 else 0)
       + (if threshold < a.headline.length + a.description.length then 3/10 else 0))

/-- Funnel stages, in the order the buckets are listed. -/
inductive FunnelStage where
  | awareness
  | consideration
  | conversion
deriving DecidableEq

/-- Modelled from the spec: the awareness keyword bucket. -/
def awareness_words : List String := ["new", "introducing", "discover"]

/-- Modelled from the spec: the consideration keyword bucket. -/
def consideration_words : List String := ["compare", "features", "benefits"]

/-- Modelled from the spec: the conversion keyword bucket. -/
def conversion_words : List String := ["buy", "purchase", "order now"]

/-- A keyword hit is a substring occurrence in the ad text. -/
def containsKeyword (text kw : String) : Bool :=
  decide (kw.toList <:+: text.toList)

/-- Number of keywords of a bucket that occur in the text. -/
def keywordHits (text : String) (kws : List String) : ℕ :=
  (kws.filter (containsKeyword text)).length

/-- Hit count of a given funnel stage's bucket on headline+description. -/
def stageHits (headline description : String) : FunnelStage → ℕ
  | .awareness => keywordHits (headline ++ " " ++ description) awareness_words
  | .consideration => keywordHits (headline ++ " " ++ description) consideration_words
  | .conversion => keywordHits (headline ++ " " ++ description) conversion_words

/-- Modelled from the spec: funnel-stage classification.  The bucket
with the highest hit count on headline+description wins; ties resolve
to the earlier-listed bucket. -/
def detectFunnelStage (headline description : String) : FunnelStage :=
  let a := stageHits headline description .awareness
  let c := stageHits headline description .consideration
  let v := stageHits headline description .conversion
  if c ≤ a ∧ v ≤ a then .awareness
  else if v ≤ c then .consideration
  else .conversion

/-! ## Fetch orchestration: dedup/upsert store and inactive marking -/

/-- A normalized ad observation produced by a platform adapter. -/
structure AdObs where
  extId : String
  headline : String
  description : String
  url : String
  mediaFormat : MediaFormat
  impressions : Option ℕ
deriving DecidableEq

/-- Adapter outcome for one platform, per the adapter contract:
Ok with ads, PartialOk with ads and a warning, or an Error. -/
inductive FetchResult where
  | ok : List AdObs → FetchResult
  | okPartial : List AdObs → String → FetchResult
  | err : String → FetchResult
deriving DecidableEq

/-- The result set of a successful (Ok or PartialOk) adapter call;
`none` for an errored call. -/
def FetchResult.successAds : FetchResult → Option (List AdObs)
  | .ok ads => some ads
  | .okPartial ads _ => some ads
  | .err _ => none

/-- A stored Ad row for one competitor. -/
structure StoredAd where
  platform : Platform
  extId : String
  headline : String
  description : String
  url : String
  mediaFormat : MediaFormat
  impressions : Option ℕ
  firstSeen : ℕ
  lastSeen : ℕ
  isActive : Bool
deriving DecidableEq

/-- The stored ad set of one competitor, keyed by the dedup key
(platform, external-ad-id); the key is unique by invariant, so the
store is a partial map. -/
def AdStore : Type := Platform → String → Option StoredAd

/-- Modelled from the spec: dedup/upsert of one observation at its key.
No existing row: insert with first-seen = last-seen = now, active.
Existing row: bump last-seen, set active, overwrite the mutable display
fields (headline/description/URL/impressions), preserve first-seen. -/
def upsertAd (p : Platform) (now : ℕ) (o : AdObs) : Option StoredAd → StoredAd
  | some a =>
    { a with headline := o.headline, description := o.description,
             url := o.url, impressions := o.impressions,
             lastSeen := now, isActive := true }
  | none =>
    { platform := p, extId := o.extId, headline := o.headline,
      description := o.description, url := o.url,
      mediaFormat := o.mediaFormat, impressions := o.impressions,
      firstSeen := now, lastSeen := now, isActive := true }

/-- Mark a stored ad inactive (it stays in storage, never deleted). -/
def markInactive (a : StoredAd) : StoredAd := { a with isActive := false }

/-- Modelled from the spec: one `runFetch` orchestration cycle for one
competitor, as its effect on the keyed ad store.  For each key: an
errored platform leaves the row untouched; a successful platform either
upserts the row (its external-ad-id is in the result set) or marks the
row inactive (it is absent from the result set). -/
def runFetch (now : ℕ) (results : Platform → FetchResult) (store : AdStore) : AdStore :=
  fun p e =>
    match (results p).successAds with
    | none => store p e
    | some rs =>
      match rs.find? (fun o => o.extId == e) with
      | some o => some (upsertAd p now o (store p e))
      | none => (store p e).map markInactive

/-! ## Command Center chat (CommandCenter.tsx, ChatInput.tsx) -/

/-- Who authored a chat message. -/
inductive MsgType where
  | bot
  | user
deriving DecidableEq

/-- A chat message (id and timestamp are wall-clock values irrelevant to
the verified properties and are omitted). -/
structure ChatMsg where
  type : MsgType
  content : String
deriving DecidableEq

/-- The Command Center state touched by `handleSend`: the input field,
the loading flag and the message list. -/
structure ChatState where
  message : String
  isLoading : Bool
  messages : List ChatMsg
deriving DecidableEq

/-- Outcome of the `fetch` call to the genai endpoint: HTTP ok with an
optional `reply` field in the JSON body, a non-ok HTTP status, or a
thrown error. -/
inductive FetchOutcome where
  | success : Option String → FetchOutcome
  | httpNotOk : FetchOutcome
  | threw : FetchOutcome
deriving DecidableEq

/-- Fallback bot text used when `data.reply` is falsy. -/
def fallbackReply : String := "I apologize, but I couldn\x27t generate a response."

/-- Bot text used on the catch path (thrown error or non-ok status). -/
def connectionErrorReply : String :=
  "I apologize, but I encountered an error connecting to the server. Please check your connection and try again."

/-- JavaScript `trim()`: strip leading and trailing whitespace.  Written
by structural recursion so that concrete instances evaluate inside the
kernel. -/
def jsTrim (s : String) : String :=
  String.mk (((s.data.dropWhile Char.isWhitespace).reverse.dropWhile
    Char.isWhitespace).reverse)

/-- JavaScript `a || b` on an optional string: missing or empty (falsy)
falls through to the default. -/
def jsOrString (v : Option String) (d : String) : String :=
  match v with
  | some s => if s = "" then d else s
  | none => d

/-- `textOverride || message`: the override is used unless it is absent
or empty (falsy). -/
def resolveTextToSend (textOverride : Option String) (message : String) : String :=
  match textOverride with
  | some t => if t = "" then message else t
  | none => message

/-- `!textOverride`: the input field is cleared exactly when the
override is absent or empty (falsy). -/
def clearsInput (textOverride : Option String) : Bool :=
  match textOverride with
  | some t => t = ""
  | none => true

/-- Shallow embedding of `handleSend` (CommandCenter.tsx).  Inputs: the
state at call time, the optional text override, and the outcome of the
network call.  Output: the settled state and whether a request was
issued.  The guard `if (!textToSend.trim() || isLoading) return` makes
the call a no-op; otherwise one user message is appended, the request
runs, one bot message is appended (server reply, fallback, or connection
apology), and the `finally` block resets `isLoading` to false. -/
def handleSend (st : ChatState) (textOverride : Option String)
    (outcome : FetchOutcome) : ChatState × Bool :=
  let textToSend := resolveTextToSend textOverride st.message
  if jsTrim textToSend = "" ∨ st.isLoading then (st, false)
  else
    let botContent :=
      match outcome with
      | .success reply => jsOrString reply fallbackReply
      | .httpNotOk => connectionErrorReply
      | .threw => connectionErrorReply
    ({ message := if clearsInput textOverride then "" else st.message,
       isLoading := false,
       messages := st.messages ++ [⟨.user, textToSend⟩, ⟨.bot, botContent⟩] },
     true)

/-- Shallow embedding of ChatInput's `handleKeyPress`: `onSend` fires
exactly on Enter without shift, with a non-blank value, while not
loading. -/
def chatInputEnterSends (value : String) (isLoading : Bool)
    (key : String) (shiftKey : Bool) : Bool :=
  key = "Enter" && !shiftKey && !(jsTrim value = "") && !isLoading

/-- Shallow embedding of ChatInput's send-button `disabled` prop:
`!value.trim() || isLoading`. -/
def chatInputSendDisabled (value : String) (isLoading : Bool) : Bool :=
  jsTrim value = "" || isLoading

/-! ## Home page sample ads and related-ads selection (part_000) -/

/-- A sample ad card from the Home page's `allAds` array.  `rating` is
kept as the string the source stores; it is parsed at sort time, as the
source does with `parseFloat`. -/
structure SampleAd where
  id : ℕ
  title : String
  adType : String
  image : String
  rating : String
  votes : String
  tags : List String
  genre : String
deriving DecidableEq

/-- The Home page's sample ads array. -/
def allAds : List SampleAd :=
  [ { id := 101, title := "Nike: Just Do It Campaign", adType := "PROMOTED",
      image := "https://images.unsplash.com/photo-1542291026-7eec264c27ff?w=400&h=500&fit=crop",
      rating := "4.9", votes := "256K", tags := ["Athletic", "Motivational"],
      genre := "Sports" },
    { id := 201, title := "McDonald\x27s: I\x27m Lovin\x27 It", adType := "PROMOTED",
      image := "https://images.unsplash.com/photo-1568901346375-23c9450c58cd?w=400&h=500&fit=crop",
      rating := "4.6", votes := "298K", tags := ["Fast Food", "Family"],
      genre := "Food" },
    { id := 301, title := "Zara: Fast Fashion Leader", adType := "PROMOTED",
      image := "https://images.unsplash.com/photo-1483985988355-763728e1935b?w=400&h=500&fit=crop",
      rating := "4.7", votes := "289K", tags := ["Trendy", "Affordable"],
      genre := "Fashion" } ]

/-- JavaScript `parseFloat` restricted to the simple non-negative
decimal strings the sample ratings use. -/
def parseDecimal (s : String) : ℚ :=
  match s.splitOn "." with
  | [whole] => (whole.toNat?.getD 0 : ℚ)
  | [whole, frac] => (whole.toNat?.getD 0 : ℚ) + (frac.toNat?.getD 0 : ℚ) / (10 ^ frac.length)
  | _ => 0

/-- The sort comparator `(a, b) => parseFloat(b.rating) - parseFloat(a.rating)`
as the descending-rating order relation it induces. -/
def ratingDesc (a b : SampleAd) : Bool :=
  decide (parseDecimal b.rating ≤ parseDecimal a.rating)

/-- Shallow embedding of the Home page's `handleCardClick` related-ads
computation: filter `allAds` to the same genre and a different id, sort
by rating descending, keep the first 3. -/
def handleCardClick (ad : SampleAd) : List SampleAd :=
  (((allAds.filter (fun item => item.genre == ad.genre && item.id != ad.id)).mergeSort
      ratingDesc).take 3)

/-! ## Theorems -/

/-- C1: per-ad estimated spend is impressions/1000 times the fixed
per-platform CPM constant (Google 2.50, Meta 5.00, LinkedIn 8.00,
Reddit 1.50); absent impressions give `unavailable` (`none`), never a
reported zero. -/
theorem spend_estimation_per_platform :
    ∀ i : ℕ,
      estimateSpend .google (some i) = some ((i : ℚ) / 1000 * (5/2)) ∧
      estimateSpend .meta (some i) = some ((i : ℚ) / 1000 * 5) ∧
      estimateSpend .linkedin (some i) = some ((i : ℚ) / 1000 * 8) ∧
      estimateSpend .reddit (some i) = some ((i : ℚ) / 1000 * (3/2)) ∧
      (∀ p : Platform, estimateSpend p none = none) ∧
      (∀ p : Platform, estimateSpend p none ≠ some 0) := by
  intro i
  refine ⟨rfl, rfl, rfl, rfl, fun p => rfl, fun p h => ?_⟩
  simp [estimateSpend] at h

/-- Witness for C1 at concrete inputs. -/
theorem spend_estimation_per_platform_witness :
    estimateSpend .google (some 4000) = some ((4000 : ℚ) / 1000 * (5/2)) ∧
    estimateSpend .meta none = none ∧
    estimateSpend .meta none ≠ some 0 :=
  ⟨(spend_estimation_per_platform 4000).1,
   (spend_estimation_per_platform 4000).2.2.2.2.1 .meta,
   (spend_estimation_per_platform 4000).2.2.2.2.2 .meta⟩

/-- C2: estimated CTR is the clamp to [0.1, 15] (percent) of base 2%
plus the platform adjustment plus 0.5 for video plus 0.3 when combined
headline+description length exceeds the completeness threshold, and the
output always lies within [0.1%, 15%]. -/
theorem ctr_estimation_bounds_and_formula :
    ∀ (adj : Platform → ℚ) (threshold : ℕ) (a : MetricsAd),
      1/10 ≤ estimateCTR adj threshold a ∧
      estimateCTR adj threshold a ≤ 15 ∧
      estimateCTR adj threshold a =
        clamp (1/10) 15
          (2 + adj a.platform
             + (if a.mediaFormat = .video then 1/2 else 0)
             + (if threshold < a.headline.length + a.description.length then 3/10 else 0)) := by
  intro adj threshold a
  refine ⟨le_max_left _ _, ?_, rfl⟩
  exact max_le (by norm_num) (min_le_left _ _)

/-- C3: per-ad frequency estimate is (impressions / 1000) divided by
the competitor's total active ad count; ad count 0 is guarded and gives
`unavailable` (`none`), as do absent impressions. -/
theorem frequency_estimation_guarded :
    ∀ (i n : ℕ),
      estimateFrequency (some i) (n + 1) = some ((i : ℚ) / 1000 / ((n + 1 : ℕ) : ℚ)) ∧
      estimateFrequency (some i) 0 = none ∧
      estimateFrequency none n = none := by
  intro i n
  refine ⟨?_, rfl, rfl⟩
  simp [estimateFrequency]

/-- C4: the CPM and CPC estimates are, for each platform, the two
components of one shared fixed per-platform table of constants, and the
per-ad estimates depend only on the ad's platform (they are never
computed from the ad's observed data). -/
theorem cpm_cpc_single_table :
    (∀ p : Platform,
        cpm_estimates p = (platformRateTable p).1 ∧
        cpc_estimates p = (platformRateTable p).2) ∧
    (∀ a b : MetricsAd, a.platform = b.platform →
        adCPM a = adCPM b ∧ adCPC a = adCPC b) := by
  constructor
  · intro p
    cases p <;> exact ⟨rfl, rfl⟩
  · intro a b h
    rw [adCPM, adCPC, adCPM, adCPC, h]
    exact ⟨rfl, rfl⟩

/-- Witness for C4 at concrete inputs. -/
theorem cpm_cpc_single_table_witness :
    cpm_estimates .meta = (platformRateTable .meta).1 ∧
    adCPM ⟨.meta, "a", "b", .image, some 10⟩ = adCPM ⟨.meta, "c", "d", .video, none⟩ :=
  ⟨(cpm_cpc_single_table.1 .meta).1,
   (cpm_cpc_single_table.2 ⟨.meta, "a", "b", .image, some 10⟩ ⟨.meta, "c", "d", .video, none⟩ rfl).1⟩

/-- C5: funnel-stage classification counts keyword hits of
headline+description against three pairwise-disjoint buckets, returns
the bucket with the highest hit count, and ties resolve to the
earlier-listed bucket (awareness over consideration over conversion). -/
theorem funnel_stage_argmax_tiebreak :
    ∀ headline description : String,
      ((∀ w ∈ awareness_words, w ∉ consideration_words) ∧
       (∀ w ∈ awareness_words, w ∉ conversion_words) ∧
       (∀ w ∈ consideration_words, w ∉ conversion_words)) ∧
      stageHits headline description (detectFunnelStage headline description) =
        max (stageHits headline description .awareness)
          (max (stageHits headline description .consideration)
            (stageHits headline description .conversion)) ∧
      (stageHits headline description .consideration ≤ stageHits headline description .awareness →
       stageHits headline description .conversion ≤ stageHits headline description .awareness →
       detectFunnelStage headline description = .awareness) ∧
      (stageHits headline description .awareness < stageHits headline description .consideration →
       stageHits headline description .conversion ≤ stageHits headline description .consideration →
       detectFunnelStage headline description = .consideration) ∧
      (stageHits headline description .awareness < stageHits headline description .conversion →
       stageHits headline description .consideration < stageHits headline description .conversion →
       detectFunnelStage headline description = .conversion) := by
  intro headline description
  refine ⟨⟨by decide, by decide, by decide⟩, ?_, ?_, ?_, ?_⟩
  · simp only [detectFunnelStage]
    split_ifs with h1 h2
    · simp only [stageHits] at h1 ⊢
      omega
    · simp only [stageHits] at h1 h2 ⊢
      omega
    · simp only [stageHits] at h1 h2 ⊢
      omega
  · intro ha hb
    simp only [detectFunnelStage]
    rw [if_pos ⟨ha, hb⟩]
  · intro ha hb
    simp only [detectFunnelStage]
    rw [if_neg, if_pos hb]
    omega
  · intro ha hb
    simp only [detectFunnelStage]
    rw [if_neg, if_neg]
    · omega
    · omega

/-- Witness for C5 at concrete inputs. -/
theorem funnel_stage_argmax_tiebreak_witness :
    detectFunnelStage "buy now" "purchase order now" = .conversion ∧
    detectFunnelStage "hello" "world" = .awareness :=
  ⟨(funnel_stage_argmax_tiebreak "buy now" "purchase order now").2.2.2.2
      (by decide) (by decide),
   (funnel_stage_argmax_tiebreak "hello" "world").2.2.1 (by decide) (by decide)⟩

/-- C6: after a `runFetch` run, a stored ad whose platform returned
Ok/PartialOk and whose external-ad-id is absent from that platform's
result set is marked inactive, while a stored ad whose platform errored
is left entirely unchanged. -/
theorem runFetch_inactive_marking (now : ℕ) (results : Platform → FetchResult)
    (store : AdStore) (p : Platform) (e : String) (a : StoredAd)
    (h : store p e = some a) :
    (∀ rs : List AdObs,
        (results p = .ok rs ∨ ∃ w, results p = .okPartial rs w) →
        (∀ o ∈ rs, o.extId ≠ e) →
        runFetch now results store p e = some (markInactive a)) ∧
    (∀ msg, results p = .err msg →
        runFetch now results store p e = some a) := by
  constructor
  · intro rs hres habs
    have hs : (results p).successAds = some rs := by
      rcases hres with h1 | ⟨w, h1⟩ <;> rw [h1] <;> rfl
    have hfind : rs.find? (fun o => o.extId == e) = none := by
      rw [List.find?_eq_none]
      intro o ho
      simpa using habs o ho
    simp [runFetch, hs, hfind, h]
  · intro msg hres
    have hs : (results p).successAds = none := by rw [hres]; rfl
    simpa [runFetch, hs] using h

/-- Witness for C6 at concrete inputs. -/
theorem runFetch_inactive_marking_witness :
    runFetch 7 (fun _ => FetchResult.ok [])
        (fun _ _ => some ⟨.google, "ad1", "h", "d", "u", .image, none, 1, 2, true⟩)
        .google "ad1"
      = some (markInactive ⟨.google, "ad1", "h", "d", "u", .image, none, 1, 2, true⟩) ∧
    runFetch 7 (fun _ => FetchResult.err "down")
        (fun _ _ => some ⟨.google, "ad1", "h", "d", "u", .image, none, 1, 2, true⟩)
        .google "ad1"
      = some ⟨.google, "ad1", "h", "d", "u", .image, none, 1, 2, true⟩ :=
  ⟨(runFetch_inactive_marking 7 (fun _ => FetchResult.ok [])
      (fun _ _ => some ⟨.google, "ad1", "h", "d", "u", .image, none, 1, 2, true⟩)
      .google "ad1" _ rfl).1 [] (Or.inl rfl) (by simp),
   (runFetch_inactive_marking 7 (fun _ => FetchResult.err "down")
      (fun _ _ => some ⟨.google, "ad1", "h", "d", "u", .image, none, 1, 2, true⟩)
      .google "ad1" _ rfl).2 "down" rfl⟩

/-- Helper: the effect at one key of re-running `runFetch` with the same
per-platform results: either the row is unchanged, or only its
last-seen is bumped to the new time. -/
theorem runFetch_twice_key (t1 t2 : ℕ) (results : Platform → FetchResult)
    (store : AdStore) (p : Platform) (e : String) :
    runFetch t2 results (runFetch t1 results store) p e
      = runFetch t1 results store p e ∨
    ∃ a, runFetch t1 results store p e = some a ∧
      runFetch t2 results (runFetch t1 results store) p e
        = some { a with lastSeen := t2 } := by
  cases hs : (results p).successAds with
  | none =>
    left
    simp [runFetch, hs]
  | some rs =>
    cases hf : rs.find? (fun o => o.extId == e) with
    | none =>
      left
      simp only [runFetch, hs, hf]
      cases store p e <;> rfl
    | some o =>
      right
      refine ⟨upsertAd p t1 o (store p e), by simp [runFetch, hs, hf], ?_⟩
      simp only [runFetch, hs, hf]
      cases store p e <;> rfl

/-- C7: re-running `runFetch` with results identical to the previous run
preserves every row's first-seen, creates no new rows and deletes none,
and changes each row at most by bumping its last-seen to the new run's
time. -/
theorem runFetch_rerun_preserves_firstSeen (t1 t2 : ℕ)
    (results : Platform → FetchResult) (store : AdStore)
    (p : Platform) (e : String) :
    (runFetch t2 results (runFetch t1 results store) p e).map StoredAd.firstSeen =
      (runFetch t1 results store p e).map StoredAd.firstSeen ∧
    (runFetch t2 results (runFetch t1 results store) p e).isSome =
      (runFetch t1 results store p e).isSome ∧
    (runFetch t2 results (runFetch t1 results store) p e
        = runFetch t1 results store p e ∨
     ∃ a, runFetch t1 results store p e = some a ∧
       runFetch t2 results (runFetch t1 results store) p e
         = some { a with lastSeen := t2 }) := by
  rcases runFetch_twice_key t1 t2 results store p e with h | ⟨a, h1, h2⟩
  · rw [h]
    exact ⟨rfl, rfl, Or.inl rfl⟩
  · rw [h1, h2]
    exact ⟨rfl, rfl, Or.inr ⟨a, rfl, rfl⟩⟩

/-- C8: a Command Center send attempt is a no-op when the resolved text
is blank after trimming or a send is in flight, and under the same
conditions ChatInput's Enter handler does not fire and its send button
is disabled. -/
theorem chat_send_noop (st : ChatState) (textOverride : Option String)
    (outcome : FetchOutcome) (value : String) (loading : Bool)
    (h1 : jsTrim (resolveTextToSend textOverride st.message) = "" ∨ st.isLoading = true)
    (h2 : jsTrim value = "" ∨ loading = true) :
    handleSend st textOverride outcome = (st, false) ∧
    chatInputSendDisabled value loading = true ∧
    (∀ key shiftKey, chatInputEnterSends value loading key shiftKey = false) := by
  refine ⟨?_, ?_, ?_⟩
  · rcases h1 with h | h <;> simp [handleSend, h]
  · rcases h2 with h | h <;> simp [chatInputSendDisabled, h]
  · intro key shiftKey
    rcases h2 with h | h <;> simp [chatInputEnterSends, h]

/-- Witness for C8 at concrete inputs. -/
theorem chat_send_noop_witness :
    handleSend ⟨"   ", false, []⟩ none (.success (some "x")) = (⟨"   ", false, []⟩, false) ∧
    chatInputSendDisabled "" true = true ∧
    (∀ key shiftKey, chatInputEnterSends "" true key shiftKey = false) :=
  chat_send_noop ⟨"   ", false, []⟩ none (.success (some "x")) "" true
    (Or.inl (by decide)) (Or.inr rfl)

/-- C9 counterexample: a successful request whose JSON body carries the
reply field with the empty string appends the fixed fallback text, not
the server's reply, because `data.reply || fallback` treats the empty
string as falsy. -/
theorem chat_reply_field_counterexample :
    (handleSend ⟨"hi", false, []⟩ none (.success (some ""))).1.messages =
      [⟨.user, "hi"⟩, ⟨.bot, fallbackReply⟩] ∧
    fallbackReply ≠ "" := by
  constructor
  · decide
  · decide

/-- C9 (amended): every non-no-op `handleSend` appends exactly one user
message and then exactly one bot message — the server's reply when the
request succeeds with a nonempty reply field, the fixed fallback text
when the reply is missing or empty, the fixed connection apology when
the request throws or has a non-ok status — and the settled state has
isLoading = false on every path. -/
theorem handleSend_appends_one_user_one_bot (st : ChatState)
    (textOverride : Option String) (outcome : FetchOutcome)
    (h1 : jsTrim (resolveTextToSend textOverride st.message) ≠ "")
    (h2 : st.isLoading = false) :
    (handleSend st textOverride outcome).2 = true ∧
    (handleSend st textOverride outcome).1.isLoading = false ∧
    (handleSend st textOverride outcome).1.messages =
      st.messages ++
        [⟨.user, resolveTextToSend textOverride st.message⟩,
         ⟨.bot, match outcome with
                | .success (some r) => if r = "" then fallbackReply else r
                | .success none => fallbackReply
                | .httpNotOk => connectionErrorReply
                | .threw => connectionErrorReply⟩] := by
  have hcond : ¬(jsTrim (resolveTextToSend textOverride st.message) = "" ∨ st.isLoading) := by
    rw [h2]
    simp [h1]
  refine ⟨?_, ?_, ?_⟩
  · simp [handleSend, hcond]
  · simp [handleSend, hcond]
  · simp only [handleSend, hcond, if_neg]
    cases outcome with
    | success reply => cases reply <;> rfl
    | httpNotOk => rfl
    | threw => rfl

/-- Witness for the amended C9 at concrete inputs. -/
theorem handleSend_appends_witness :
    (handleSend ⟨"hi", false, []⟩ none .threw).1.messages =
      [⟨.user, "hi"⟩, ⟨.bot, connectionErrorReply⟩] ∧
    (handleSend ⟨"hi", false, []⟩ none .threw).1.isLoading = false := by
  have h := handleSend_appends_one_user_one_bot ⟨"hi", false, []⟩ none .threw (by decide) rfl
  exact ⟨by simpa using h.2.2, h.2.1⟩

/-- C10: the related-ads list for a clicked ad card holds at most 3
entries, contains only sample ads with the clicked ad's genre and a
different id, and is sorted by parsed rating in descending order. -/
theorem handleCardClick_related_ads :
    ∀ ad : SampleAd,
      (handleCardClick ad).length ≤ 3 ∧
      (∀ x ∈ handleCardClick ad, x ∈ allAds ∧ x.genre = ad.genre ∧ x.id ≠ ad.id) ∧
      (handleCardClick ad).Pairwise
        (fun a b => parseDecimal b.rating ≤ parseDecimal a.rating) := by
  intro ad
  refine ⟨?_, ?_, ?_⟩
  · rw [handleCardClick, List.length_take]
    exact min_le_left _ _
  · intro x hx
    rw [handleCardClick] at hx
    have hx1 := List.mem_of_mem_take hx
    have hx2 := (List.mergeSort_perm
      (allAds.filter (fun item => item.genre == ad.genre && item.id != ad.id))
      ratingDesc).mem_iff.mp hx1
    rw [List.mem_filter] at hx2
    obtain ⟨hmem, hpred⟩ := hx2
    simp only [Bool.and_eq_true, beq_iff_eq, bne_iff_ne] at hpred
    exact ⟨hmem, hpred.1, hpred.2⟩
  · have htrans : ∀ a b c : SampleAd,
        ratingDesc a b → ratingDesc b c → ratingDesc a c := by
      intro a b c hab hbc
      simp only [ratingDesc, decide_eq_true_eq] at hab hbc ⊢
      exact le_trans hbc hab
    have htotal : ∀ a b : SampleAd, ratingDesc a b || ratingDesc b a := by
      intro a b
      simpa [ratingDesc] using
        le_total (parseDecimal b.rating) (parseDecimal a.rating)
    have hs := @List.sorted_mergeSort SampleAd ratingDesc htrans htotal
      (allAds.filter (fun item => item.genre == ad.genre && item.id != ad.id))
    have hs2 : ((allAds.filter
        (fun item => item.genre == ad.genre && item.id != ad.id)).mergeSort
          ratingDesc).Pairwise
        (fun a b => parseDecimal b.rating ≤ parseDecimal a.rating) := by
      refine hs.imp ?_
      intro a b hab
      simpa [ratingDesc] using hab
    rw [handleCardClick]
    exact hs2.sublist (List.take_sublist 3 _)

/-- Witness for C10 at concrete inputs: clicking a Sports-genre card
with a fresh id relates exactly the Nike sample ad. -/
theorem handleCardClick_related_ads_witness :
    (handleCardClick ⟨0, "", "", "", "0", "", [], "Sports"⟩).length ≤ 3 ∧
    (⟨101, "Nike: Just Do It Campaign", "PROMOTED",
      "https://images.unsplash.com/photo-1542291026-7eec264c27ff?w=400&h=500&fit=crop",
      "4.9", "256K", ["Athletic", "Motivational"], "Sports"⟩ : SampleAd) ∈ allAds ∧
    (⟨101, "Nike: Just Do It Campaign", "PROMOTED",
      "https://images.unsplash.com/photo-1542291026-7eec264c27ff?w=400&h=500&fit=crop",
      "4.9", "256K", ["Athletic", "Motivational"], "Sports"⟩ : SampleAd).id ≠ 0 := by
  have hmem : (⟨101, "Nike: Just Do It Campaign", "PROMOTED",
      "https://images.unsplash.com/photo-1542291026-7eec264c27ff?w=400&h=500&fit=crop",
      "4.9", "256K", ["Athletic", "Motivational"], "Sports"⟩ : SampleAd) ∈
      handleCardClick ⟨0, "", "", "", "0", "", [], "Sports"⟩ := by
    simp [handleCardClick, allAds, List.filter]
  have h := handleCardClick_related_ads ⟨0, "", "", "", "0", "", [], "Sports"⟩
  exact ⟨h.1, (h.2.1 _ hmem).1, (h.2.1 _ hmem).2.2⟩

end Elfsod
